import Mathlib

/-!
Shallow embedding of `src/assets/script.js` (browser-side prediction form
controller) and verification of the specification's claims about it.

The JavaScript is translated as follows:
* DOM input values are `String`s (as `HTMLInputElement.value` is).
* `Date` values parsed from `"YYYY-MM-DD" + "T00:00:00Z"` strings are modelled
  by `JDate` (calendar triples); an invalid date (`isNaN(date.getTime())`) is
  `Option.none`.  Comparison of `Date` objects compares their epoch
  milliseconds, which for midnight-UTC dates is the lexicographic order on
  (year, month, day), modelled by `dateLe`.
* Thrown `Error(msg)` values are `Except.error msg`; the error kinds of the
  spec (InvalidDate, NonFutureTarget, MissingHorizon, MissingScenario,
  RemoteRejection, TransportFailure) are identified by their message strings.
* JavaScript numbers are modelled by `ℚ` (with `Option` for `NaN`), and
  `Number.prototype.toFixed(2)` by its ECMA-262 definition on exact rationals
  (round to nearest hundredth, ties away from zero on the magnitude).
* The `fetch` call and the remote endpoint are the environment: the handler is
  parameterised by a `FetchOutcome` (success body, non-ok response, or a
  rejected promise), and reports the payload it posted (`none` when the
  outbound call was never reached).
-/

/-- A parsed calendar date, as recovered from a JS `Date` built from an ISO
`YYYY-MM-DDT00:00:00Z` string.  `month` is kept 1-based (JS `getMonth()` is
0-based, but only month differences are ever used, which agree). -/
structure JDate where
  year : Nat
  month : Nat
  day : Nat
  deriving DecidableEq, Repr

/-- Gregorian leap-year rule, as used by JS `Date`. -/
def isLeapYear (y : Nat) : Bool :=
  (y % 4 == 0 && y % 100 != 0) || y % 400 == 0

/-- Number of days of month `m` (1-based) in year `y`. -/
def daysInMonth (y m : Nat) : Nat :=
  if m = 2 then (if isLeapYear y then 29 else 28)
  else if m = 4 ∨ m = 6 ∨ m = 9 ∨ m = 11 then 30
  else 31

/-- Numeric value of a decimal digit character. -/
def digitVal (c : Char) : Nat := c.toNat - '0'.toNat

/-- JS `new Date(s + "T00:00:00Z")` for a date-only string `s`: per the
ECMA-262 Date Time String Format the date part must be exactly `YYYY-MM-DD`
with in-range month and day, otherwise the result is an Invalid Date
(modelled `none`). -/
def parseISODate (s : String) : Option JDate :=
  match s.data with
  | [y1, y2, y3, y4, h1, m1, m2, h2, d1, d2] =>
    if y1.isDigit && y2.isDigit && y3.isDigit && y4.isDigit && h1 == '-'
        && m1.isDigit && m2.isDigit && h2 == '-' && d1.isDigit && d2.isDigit then
      let y := ((digitVal y1 * 10 + digitVal y2) * 10 + digitVal y3) * 10 + digitVal y4
      let m := digitVal m1 * 10 + digitVal m2
      let d := digitVal d1 * 10 + digitVal d2
      if 1 ≤ m ∧ m ≤ 12 ∧ 1 ≤ d ∧ d ≤ daysInMonth y m then some ⟨y, m, d⟩ else none
    else none
  | _ => none

/-- Order on midnight-UTC dates induced by JS `Date` comparison (epoch
milliseconds): lexicographic on (year, month, day). -/
def dateLe (a b : JDate) : Prop :=
  a.year < b.year ∨ (a.year = b.year ∧
    (a.month < b.month ∨ (a.month = b.month ∧ a.day ≤ b.day)))

/-- Strict version of `dateLe`. -/
def dateLt (a b : JDate) : Prop :=
  a.year < b.year ∨ (a.year = b.year ∧
    (a.month < b.month ∨ (a.month = b.month ∧ a.day < b.day)))

instance (a b : JDate) : Decidable (dateLe a b) := by
  unfold dateLe; exact inferInstance

instance (a b : JDate) : Decidable (dateLt a b) := by
  unfold dateLt; exact inferInstance

/-- `const BACKEND_URL = "http://127.0.0.1:8000"` (script.js line 46). -/
def BACKEND_URL : String := "http://127.0.0.1:8000"

/-- `const LAST_DATA_DATE = "2021-03-01"` (script.js line 47). -/
def LAST_DATA_DATE : String := "2021-03-01"

/-- Message of the InvalidDate error (script.js line 73). -/
def invalidDateMsg : String := "Las fechas no son válidas."

/-- Message of the NonFutureTarget error (script.js lines 77-79); note it
interpolates only the target string, the reference is the fixed literal text
`marzo 2021`. -/
def nonFutureMsg (fechaObjetivoISO : String) : String :=
  "La fecha objetivo (" ++ fechaObjetivoISO ++
    ") debe ser posterior a la última fecha disponible (marzo 2021)."

/-- Message of the MissingHorizon error (script.js line 113). -/
def missingHorizonMsg : String :=
  "Por favor selecciona un horizonte de meses o una fecha objetivo."

/-- Message of the MissingScenario error (script.js line 117). -/
def missingScenarioMsg : String := "Por favor selecciona un escenario climático."

/-- Fallback message of the RemoteRejection error (script.js line 136). -/
def remoteFallbackMsg : String := "Error en la predicción."

/-- Year-month shorthand normalisation (script.js lines 65-67):
`fechaObjetivoISO.includes("-") && fechaObjetivoISO.length === 7
  ? fechaObjetivoISO + "-01" : fechaObjetivoISO`. -/
def normalizeFecha (s : String) : String :=
  if s.data.contains '-' && s.length == 7 then s ++ "-01" else s

/-- `calcularMesesHastaFecha` (script.js lines 64-87): normalise a year-month
shorthand, parse both strings as midnight-UTC dates, reject invalid dates,
reject a target not strictly after the reference (full-date comparison), and
otherwise return `(yearDiff) * 12 + (monthDiff)`. -/
def calcularMesesHastaFecha (fechaObjetivoISO ultimaFechaISO : String) :
    Except String Int :=
  let fechaObjetivoStr := normalizeFecha fechaObjetivoISO
  match parseISODate fechaObjetivoStr, parseISODate ultimaFechaISO with
  | some fechaObjetivo, some ultimaFecha =>
    if dateLe fechaObjetivo ultimaFecha then
      .error (nonFutureMsg fechaObjetivoISO)
    else
      .ok (((fechaObjetivo.year : Int) - (ultimaFecha.year : Int)) * 12 +
        ((fechaObjetivo.month : Int) - (ultimaFecha.month : Int)))
  | _, _ => .error invalidDateMsg

/-- JS `String.prototype.trim()`: strip leading and trailing whitespace. -/
def jsTrim (s : String) : String :=
  ⟨(((s.data.dropWhile Char.isWhitespace).reverse.dropWhile
      Char.isWhitespace).reverse)⟩

/-- The decimal digits at the head of a character list. -/
def leadingDigits (cs : List Char) : List Char := cs.takeWhile Char.isDigit

/-- Value of a list of decimal digit characters. -/
def digitsToNat (cs : List Char) : Nat :=
  cs.foldl (fun a c => a * 10 + digitVal c) 0

/-- JS `parseInt(s, 10)`: trim, optional sign, value of the leading run of
digits; `NaN` (modelled `none`) when that run is empty. -/
def jsParseInt (s : String) : Option Int :=
  let t := (jsTrim s).data
  let sgn : Int := match t with
    | '-' :: _ => -1
    | _ => 1
  let rest : List Char := match t with
    | '-' :: r => r
    | '+' :: r => r
    | r => r
  let ds := leadingDigits rest
  if ds.isEmpty then none else some (sgn * (digitsToNat ds : Int))

/-- JS `parseFloat(s)` restricted to plain decimal literals (optional sign,
integer digits, optional fraction); exponents and `Infinity` are not used by
any claim and are conservatively mapped to `NaN` (`none`). -/
def jsParseFloat (s : String) : Option ℚ :=
  let t := (jsTrim s).data
  let sgn : ℚ := match t with
    | '-' :: _ => -1
    | _ => 1
  let rest : List Char := match t with
    | '-' :: r => r
    | '+' :: r => r
    | r => r
  let intDs := leadingDigits rest
  let rest2 := rest.drop intDs.length
  let fracDs : List Char := match rest2 with
    | '.' :: r => leadingDigits r
    | _ => []
  if intDs.isEmpty && fracDs.isEmpty then none
  else some (sgn * ((digitsToNat intDs : ℚ) +
    (digitsToNat fracDs : ℚ) / (10 : ℚ) ^ fracDs.length))

/-- Two-decimal-digit rendering of `n < 100`, as produced by `toFixed(2)`
after the decimal point. -/
def pad2 (n : Nat) : String :=
  if n < 10 then "0" ++ toString n else toString n

/-- The magnitude of `q` scaled by 100 and rounded per ECMA-262 21.1.3.3: for
`x = a / b` (with `a = x.num.toNat`, `b = x.den > 0`) the integer `n` with
`n / 100` closest to `x`, ties picking the larger `n`; that `n` equals
`⌊100 * x + 1 / 2⌋ = (200 * a + b) / (2 * b)` in natural-number division. -/
def toFixedScaled (q : ℚ) : Nat :=
  let x := if q < 0 then -q else q
  (200 * x.num.toNat + x.den) / (2 * x.den)

/-- `Number.prototype.toFixed(2)` per ECMA-262 21.1.3.3, on exact rationals:
print sign, integer part, `"."` and exactly two digits of the rounded
hundredths value `toFixedScaled q`. -/
def jsToFixed2 (q : ℚ) : String :=
  (if q < 0 then "-" else "") ++ toString (toFixedScaled q / 100) ++ "." ++
    pad2 (toFixedScaled q % 100)

/-- One entry of `prediccion_mensual` in the success response body
(spec section 6). -/
structure MonthEntry where
  fecha : String
  nivel : ℚ
  situacion : String
  es_sequia : Bool
  es_nivel_bajo : Bool

/-- The success response body of `POST /predict` (spec section 6). -/
structure PredictionResult where
  riesgo_global : String
  sequia_probable : Bool
  prediccion_mensual : List MonthEntry

/-- The JSON payload posted to `/predict` (script.js lines 120-124).
`horizonte_meses` is `Option Int` with `none` for `NaN` (a non-numeric manual
horizon); `nivel_actual_usuario` is `none` for `null` and `some none` for
`NaN`. -/
structure Payload where
  horizonte_meses : Option Int
  escenario : String
  nivel_actual_usuario : Option (Option ℚ)
  deriving DecidableEq

/-- One rendered `<tr>` of the monthly table (script.js lines 167-189),
keeping each cell's text and the class attributes that were set. -/
structure RenderedRow where
  fecha : String
  nivelText : String
  situacionClase : String
  situacionText : String
  sequiaClase : String
  sequiaText : String
  bajoClase : String
  bajoText : String
  deriving DecidableEq

/-- The DOM state the script mutates: submit button, error banner, results
section, risk box, drought summary line and table body. -/
structure UIState where
  calcularBtnDisabled : Bool
  calcularBtnLabel : String
  errorVisible : Bool
  errorText : String
  resultsVisible : Bool
  riesgoGlobalText : String
  riesgoBoxClasses : List String
  sequiaInfoText : String
  tbodyRows : List RenderedRow
  deriving DecidableEq

/-- Outcome of the `fetch` call, supplied by the environment: a parsed success
body, a non-ok response (with the optional `detail` field of its JSON body),
or a rejection below the HTTP layer (network or parse failure). -/
inductive FetchOutcome where
  | ok (resultado : PredictionResult)
  | httpError (detail : Option String)
  | transportFailure (message : String)

/-- The raw string values of the four form fields at submit time. -/
structure FormState where
  horizonteValue : String
  escenarioValue : String
  nivelUsuarioValue : String
  fechaObjetivoValue : String

/-- Body of the `forEach` in `mostrarResultados` (script.js lines 167-189):
situation class by precedence drought, then low-level, else normal; level via
`toFixed(2)`; the two flags as `Sí`/`No` with boolean classes. -/
def renderRow (mes : MonthEntry) : RenderedRow :=
  let situacionClase :=
    if mes.es_sequia then "situacion-sequia"
    else if mes.es_nivel_bajo then "situacion-bajo"
    else "situacion-normal"
  let sequiaClase := if mes.es_sequia then "boolean-true" else "boolean-false"
  let bajoclase := if mes.es_nivel_bajo then "boolean-true" else "boolean-false"
  { fecha := mes.fecha
    nivelText := jsToFixed2 mes.nivel
    situacionClase := situacionClase
    situacionText := mes.situacion
    sequiaClase := sequiaClase
    sequiaText := if mes.es_sequia then "Sí" else "No"
    bajoClase := bajoclase
    bajoText := if mes.es_nivel_bajo then "Sí" else "No" }

/-- `mostrarResultados` (script.js lines 152-190): show the results section,
write the risk label and its lowercase class, write the drought summary, clear
the table body and append one row per month entry. -/
def mostrarResultados (resultado : PredictionResult) (ui : UIState) : UIState :=
  { ui with
    resultsVisible := true
    riesgoGlobalText := resultado.riesgo_global
    riesgoBoxClasses := ["riesgo-box", resultado.riesgo_global.toLower]
    sequiaInfoText :=
      if resultado.sequia_probable then "⚠️ Sequía probable en el período"
      else "✓ Sin sequía probable en el período"
    tbodyRows := resultado.prediccion_mensual.map renderRow }

/-- `mostrarError` (script.js lines 193-198): show the message with a warning
glyph, make the error banner visible, hide the results section and clear the
table body. -/
def mostrarError (mensaje : String) (ui : UIState) : UIState :=
  { ui with
    errorText := "❌ " ++ mensaje
    errorVisible := true
    resultsVisible := false
    tbodyRows := [] }

/-- Horizon resolution inside the submit listener (script.js lines 102-114):
target date first (mode A), else manual horizon via `parseInt` (mode B), else
throw MissingHorizon.  JS string truthiness is non-emptiness. -/
def resolveHorizonteMeses (form : FormState) : Except String (Option Int) :=
  if form.fechaObjetivoValue ≠ "" then
    match calcularMesesHastaFecha form.fechaObjetivoValue LAST_DATA_DATE with
    | .ok n => .ok (some n)
    | .error e => .error e
  else if form.horizonteValue ≠ "" then .ok (jsParseInt form.horizonteValue)
  else .error missingHorizonMsg

/-- The validation and payload construction of the `try` block before the
`fetch` (script.js lines 99-124): read scenario and current level, resolve the
horizon (throwing from there first), then check the scenario, then build the
payload. -/
def buildPayload (form : FormState) : Except String Payload :=
  let escenarioValor := form.escenarioValue
  let nivelActual : Option (Option ℚ) :=
    if jsTrim form.nivelUsuarioValue = "" then none
    else some (jsParseFloat form.nivelUsuarioValue)
  match resolveHorizonteMeses form with
  | .error e => .error e
  | .ok horizonteMeses =>
    if escenarioValor = "" then .error missingScenarioMsg
    else .ok { horizonte_meses := horizonteMeses
               escenario := escenarioValor
               nivel_actual_usuario := nivelActual }

/-- Default label of the submit control (script.js line 147). -/
def defaultBtnLabel : String := "Calcular riesgo de sequía"

/-- Working label of the submit control (script.js line 94). -/
def workingBtnLabel : String := "Calculando..."

/-- The `finally` block (script.js lines 145-148): re-enable the submit
control and restore its default label. -/
def restoreBtn (ui : UIState) : UIState :=
  { ui with calcularBtnDisabled := false, calcularBtnLabel := defaultBtnLabel }

/-- The whole submit listener (script.js lines 90-149) as a state transformer.
Returns the final UI state and the payload passed to `fetch` (`none` when a
validation error short-circuited before the outbound call). -/
def handleSubmit (form : FormState) (fetchOutcome : FetchOutcome)
    (ui : UIState) : UIState × Option Payload :=
  let ui1 := { ui with
    calcularBtnDisabled := true
    calcularBtnLabel := workingBtnLabel
    errorVisible := false
    resultsVisible := false }
  match buildPayload form with
  | .error mensaje => (restoreBtn (mostrarError mensaje ui1), none)
  | .ok payload =>
    match fetchOutcome with
    | .httpError detail =>
      (restoreBtn (mostrarError (detail.getD remoteFallbackMsg) ui1), some payload)
    | .transportFailure mensaje =>
      (restoreBtn (mostrarError mensaje ui1), some payload)
    | .ok resultado =>
      (restoreBtn (mostrarResultados resultado ui1), some payload)

instance : DecidableEq (Except String Int) := fun a b =>
  match a, b with
  | .ok x, .ok y => decidable_of_iff (x = y) (by simp)
  | .error x, .error y => decidable_of_iff (x = y) (by simp)
  | .ok _, .error _ => isFalse (by simp)
  | .error _, .ok _ => isFalse (by simp)


/-- Initial DOM state used by concrete instantiations. -/
def uiInit : UIState :=
  ⟨false, defaultBtnLabel, false, "", false, "", [], "", []⟩

theorem not_dateLe_iff_dateLt (a b : JDate) : ¬ dateLe a b ↔ dateLt b a := by
  unfold dateLe dateLt; omega

theorem calcular_ok_of_parse (sT sR : String) (T R : JDate)
    (hT : parseISODate (normalizeFecha sT) = some T)
    (hR : parseISODate sR = some R) (h : ¬ dateLe T R) :
    calcularMesesHastaFecha sT sR =
      .ok (((T.year : Int) - (R.year : Int)) * 12 +
        ((T.month : Int) - (R.month : Int))) := by
  unfold calcularMesesHastaFecha
  simp only [hT, hR]
  rw [if_neg h]

theorem calcular_error_of_parse (sT sR : String) (T R : JDate)
    (hT : parseISODate (normalizeFecha sT) = some T)
    (hR : parseISODate sR = some R) (h : dateLe T R) :
    calcularMesesHastaFecha sT sR = .error (nonFutureMsg sT) := by
  unfold calcularMesesHastaFecha
  simp only [hT, hR]
  rw [if_pos h]

/-- C1: for every pair of valid dates, target `T` strictly after reference
`R`, `calcularMesesHastaFecha` returns `(T.year - R.year) * 12 +
(T.month - R.month)`; in particular for reference 2021-03-01 and target
2022-05-01 it returns 14. -/
theorem c1_month_count_formula :
    (∀ (sT sR : String) (T R : JDate),
      parseISODate (normalizeFecha sT) = some T →
      parseISODate sR = some R →
      dateLt R T →
      calcularMesesHastaFecha sT sR =
        .ok (((T.year : Int) - (R.year : Int)) * 12 +
          ((T.month : Int) - (R.month : Int)))) ∧
    calcularMesesHastaFecha "2022-05-01" "2021-03-01" = .ok 14 := by
  constructor
  · intro sT sR T R hT hR hlt
    exact calcular_ok_of_parse sT sR T R hT hR
      ((not_dateLe_iff_dateLt T R).mpr hlt)
  · decide

/-- Witness for C1 at target 2022-05-01 and reference 2021-03-01. -/
theorem c1_month_count_formula_witness :
    calcularMesesHastaFecha "2022-05-01" "2021-03-01" =
      .ok ((((2022 : Nat) : Int) - ((2021 : Nat) : Int)) * 12 +
        (((5 : Nat) : Int) - ((3 : Nat) : Int))) :=
  c1_month_count_formula.1 "2022-05-01" "2021-03-01"
    ⟨2022, 5, 1⟩ ⟨2021, 3, 1⟩ (by decide) (by decide) (by decide)

/-- C2 counterexample: target 2021-03-15 with reference 2021-03-01 satisfies
`T ≤ R` at month granularity (same year and month), yet the function raises
no error at all and returns 0 — the comparison in the code includes the
day-of-month. -/
theorem c2_counterexample :
    calcularMesesHastaFecha "2021-03-15" "2021-03-01" = .ok 0 := by decide

/-- C2 (amended): `calcularMesesHastaFecha` fails with the NonFutureTarget
error whenever the (normalised) target date is less than or equal to the
reference date as a full calendar date — day-of-month included — and in
particular when the two dates are equal. -/
theorem c2_nonfuture_rejection :
    ∀ (sT sR : String) (T R : JDate),
      parseISODate (normalizeFecha sT) = some T →
      parseISODate sR = some R →
      dateLe T R →
      calcularMesesHastaFecha sT sR = .error (nonFutureMsg sT) :=
  fun sT sR T R hT hR h => calcular_error_of_parse sT sR T R hT hR h

/-- Witness for C2 (amended) at target = reference = 2021-03-01. -/
theorem c2_nonfuture_rejection_witness :
    calcularMesesHastaFecha "2021-03-01" "2021-03-01" =
      .error (nonFutureMsg "2021-03-01") :=
  c2_nonfuture_rejection "2021-03-01" "2021-03-01"
    ⟨2021, 3, 1⟩ ⟨2021, 3, 1⟩ (by decide) (by decide) (by decide)

/-- C10: a target date in the same calendar month as the reference but on a
strictly later day raises no error and yields month count 0, and a submission
with such a target date (and a non-empty scenario) reaches the outbound call
with `horizonte_meses = 0` in the payload. -/
theorem c10_same_month_later_day :
    (∀ (sT sR : String) (T R : JDate),
      parseISODate (normalizeFecha sT) = some T →
      parseISODate sR = some R →
      T.year = R.year → T.month = R.month → R.day < T.day →
      calcularMesesHastaFecha sT sR = .ok 0) ∧
    (∀ (form : FormState) (fetchOutcome : FetchOutcome) (ui : UIState)
      (T : JDate),
      parseISODate (normalizeFecha form.fechaObjetivoValue) = some T →
      T.year = 2021 → T.month = 3 → 1 < T.day →
      form.fechaObjetivoValue ≠ "" →
      form.escenarioValue ≠ "" →
      ∃ p : Payload, (handleSubmit form fetchOutcome ui).2 = some p ∧
        p.horizonte_meses = some 0) := by
  have base : ∀ (sT sR : String) (T R : JDate),
      parseISODate (normalizeFecha sT) = some T →
      parseISODate sR = some R →
      T.year = R.year → T.month = R.month → R.day < T.day →
      calcularMesesHastaFecha sT sR = .ok 0 := by
    intro sT sR T R hT hR hy hm hd
    have hle : ¬ dateLe T R := by unfold dateLe; omega
    have := calcular_ok_of_parse sT sR T R hT hR hle
    rw [this, hy, hm]
    simp
  refine ⟨base, ?_⟩
  intro form fetchOutcome ui T hT hy hm hd hfecha hesc
  have hcalc : calcularMesesHastaFecha form.fechaObjetivoValue LAST_DATA_DATE
      = .ok 0 := by
    refine base form.fechaObjetivoValue LAST_DATA_DATE T ⟨2021, 3, 1⟩ hT
      (by decide) hy hm hd
  have hres : resolveHorizonteMeses form = .ok (some 0) := by
    unfold resolveHorizonteMeses
    rw [if_pos hfecha, hcalc]
  have hpay : ∃ p : Payload, buildPayload form = .ok p ∧
      p.horizonte_meses = some 0 := by
    unfold buildPayload
    rw [hres]
    simp only [if_neg hesc]
    exact ⟨_, rfl, rfl⟩
  obtain ⟨p, hp, hp0⟩ := hpay
  refine ⟨p, ?_, hp0⟩
  unfold handleSubmit
  rw [hp]
  cases fetchOutcome <;> rfl

/-- Witness for C10 at target 2021-03-15, scenario `rcp45`, with a failing
remote response. -/
theorem c10_same_month_later_day_witness :
    calcularMesesHastaFecha "2021-03-15" "2021-03-01" = .ok 0 ∧
    ∃ p : Payload,
      (handleSubmit ⟨"", "rcp45", "", "2021-03-15"⟩ (.httpError none)
        uiInit).2 = some p ∧ p.horizonte_meses = some 0 :=
  ⟨c10_same_month_later_day.1 "2021-03-15" "2021-03-01"
      ⟨2021, 3, 15⟩ ⟨2021, 3, 1⟩ (by decide) (by decide) rfl rfl (by decide),
    c10_same_month_later_day.2 ⟨"", "rcp45", "", "2021-03-15"⟩
      (.httpError none) uiInit ⟨2021, 3, 15⟩ (by decide) rfl rfl (by decide)
      (by decide) (by decide)⟩

theorem handleSubmit_error (form : FormState) (fetchOutcome : FetchOutcome)
    (ui : UIState) (msg : String) (h : buildPayload form = .error msg) :
    handleSubmit form fetchOutcome ui =
      (restoreBtn (mostrarError msg { ui with
        calcularBtnDisabled := true
        calcularBtnLabel := workingBtnLabel
        errorVisible := false
        resultsVisible := false }), none) := by
  unfold handleSubmit
  rw [h]

theorem buildPayload_scenario_after_horizon (form : FormState)
    (hfecha : form.fechaObjetivoValue = "") :
    (form.horizonteValue = "" → buildPayload form = .error missingHorizonMsg) ∧
    (form.horizonteValue ≠ "" → form.escenarioValue = "" →
      buildPayload form = .error missingScenarioMsg) := by
  have hne : ¬ form.fechaObjetivoValue ≠ "" := fun h => h hfecha
  constructor
  · intro hhor
    have hres : resolveHorizonteMeses form = .error missingHorizonMsg := by
      unfold resolveHorizonteMeses
      rw [if_neg hne, if_neg (fun h => h hhor)]
    unfold buildPayload
    rw [hres]
  · intro hhor hesc
    have hres : resolveHorizonteMeses form =
        .ok (jsParseInt form.horizonteValue) := by
      unfold resolveHorizonteMeses
      rw [if_neg hne, if_pos hhor]
    unfold buildPayload
    rw [hres]
    simp only [if_pos hesc]

/-- C3 counterexample: a submission whose scenario, target date and manual
horizon are all empty fails with the MissingHorizon message, not the
MissingScenario one — the horizon is resolved before the scenario check. -/
theorem c3_counterexample :
    (handleSubmit ⟨"", "", "", ""⟩ (.httpError none) uiInit).1.errorText =
      "❌ " ++ missingHorizonMsg ∧
    missingHorizonMsg ≠ missingScenarioMsg := by decide

/-- C3 (amended): in the submission handler the horizon is resolved before
the scenario check; with an empty scenario and empty target date, the failure
is MissingHorizon when the manual horizon is also empty, and MissingScenario
only when a manual horizon value is present (so a horizon source was
resolved first). -/
theorem c3_scenario_checked_after_horizon :
    ∀ (form : FormState) (fetchOutcome : FetchOutcome) (ui : UIState),
      form.escenarioValue = "" →
      form.fechaObjetivoValue = "" →
      ((form.horizonteValue = "" →
        (handleSubmit form fetchOutcome ui).1.errorText =
          "❌ " ++ missingHorizonMsg) ∧
       (form.horizonteValue ≠ "" →
        (handleSubmit form fetchOutcome ui).1.errorText =
          "❌ " ++ missingScenarioMsg)) := by
  intro form fetchOutcome ui hesc hfecha
  constructor
  · intro hhor
    rw [handleSubmit_error form fetchOutcome ui missingHorizonMsg
      ((buildPayload_scenario_after_horizon form hfecha).1 hhor)]
    rfl
  · intro hhor
    rw [handleSubmit_error form fetchOutcome ui missingScenarioMsg
      ((buildPayload_scenario_after_horizon form hfecha).2 hhor hesc)]
    rfl

/-- Witness for C3 (amended): empty scenario with a manual horizon of `"6"`
fails with MissingScenario; with everything empty it fails with
MissingHorizon. -/
theorem c3_scenario_checked_after_horizon_witness :
    (handleSubmit ⟨"6", "", "", ""⟩ (.httpError none) uiInit).1.errorText =
      "❌ " ++ missingScenarioMsg ∧
    (handleSubmit ⟨"", "", "", ""⟩ (.transportFailure "x") uiInit).1.errorText =
      "❌ " ++ missingHorizonMsg :=
  ⟨(c3_scenario_checked_after_horizon ⟨"6", "", "", ""⟩ (.httpError none)
      uiInit rfl rfl).2 (by decide),
    (c3_scenario_checked_after_horizon ⟨"", "", "", ""⟩ (.transportFailure "x")
      uiInit rfl rfl).1 rfl⟩

/-- C6: with both the target-date field and the manual horizon field empty,
the submission fails with MissingHorizon (shown in the error banner) and the
outbound POST is never issued. -/
theorem c6_missing_horizon_never_posts :
    ∀ (form : FormState) (fetchOutcome : FetchOutcome) (ui : UIState),
      form.fechaObjetivoValue = "" →
      form.horizonteValue = "" →
      (handleSubmit form fetchOutcome ui).1.errorText =
        "❌ " ++ missingHorizonMsg ∧
      (handleSubmit form fetchOutcome ui).1.errorVisible = true ∧
      (handleSubmit form fetchOutcome ui).2 = none := by
  intro form fetchOutcome ui hfecha hhor
  rw [handleSubmit_error form fetchOutcome ui missingHorizonMsg
    ((buildPayload_scenario_after_horizon form hfecha).1 hhor)]
  exact ⟨rfl, rfl, rfl⟩

/-- Witness for C6 with a scenario present but no horizon source. -/
theorem c6_missing_horizon_never_posts_witness :
    (handleSubmit ⟨"", "rcp45", "", ""⟩ (.ok ⟨"Alto", true, []⟩)
        uiInit).1.errorText = "❌ " ++ missingHorizonMsg ∧
    (handleSubmit ⟨"", "rcp45", "", ""⟩ (.ok ⟨"Alto", true, []⟩)
        uiInit).1.errorVisible = true ∧
    (handleSubmit ⟨"", "rcp45", "", ""⟩ (.ok ⟨"Alto", true, []⟩)
        uiInit).2 = none :=
  c6_missing_horizon_never_posts ⟨"", "rcp45", "", ""⟩
    (.ok ⟨"Alto", true, []⟩) uiInit rfl rfl

/-- C7: on every completion of the submission handler — validation failure,
remote rejection, transport failure or success — the submit control ends up
re-enabled and showing its default label. -/
theorem c7_button_always_restored :
    ∀ (form : FormState) (fetchOutcome : FetchOutcome) (ui : UIState),
      (handleSubmit form fetchOutcome ui).1.calcularBtnDisabled = false ∧
      (handleSubmit form fetchOutcome ui).1.calcularBtnLabel =
        defaultBtnLabel := by
  intro form fetchOutcome ui
  unfold handleSubmit
  cases h : buildPayload form <;> cases fetchOutcome <;> exact ⟨rfl, rfl⟩

/-- C8: after every completed submission exactly one of the results view and
the error view is visible; moreover the visible one is tied to the path
taken: on the success path (payload built and an ok response) the results
section is made visible while the error banner stays hidden, and on every
error path (validation failure, or a non-ok or failed fetch) the error banner
is made visible while the results section is hidden and the previously
rendered table rows are cleared. -/
theorem c8_exactly_one_view :
    ∀ (form : FormState) (fetchOutcome : FetchOutcome) (ui : UIState),
      (((handleSubmit form fetchOutcome ui).1.resultsVisible = true ∧
        (handleSubmit form fetchOutcome ui).1.errorVisible = false) ∨
       ((handleSubmit form fetchOutcome ui).1.errorVisible = true ∧
        (handleSubmit form fetchOutcome ui).1.resultsVisible = false ∧
        (handleSubmit form fetchOutcome ui).1.tbodyRows = [])) ∧
      (∀ (payload : Payload) (resultado : PredictionResult),
        buildPayload form = .ok payload →
        fetchOutcome = .ok resultado →
        (handleSubmit form fetchOutcome ui).1.resultsVisible = true ∧
        (handleSubmit form fetchOutcome ui).1.errorVisible = false) ∧
      (∀ msg : String,
        buildPayload form = .error msg →
        (handleSubmit form fetchOutcome ui).1.errorVisible = true ∧
        (handleSubmit form fetchOutcome ui).1.resultsVisible = false ∧
        (handleSubmit form fetchOutcome ui).1.tbodyRows = []) ∧
      (∀ payload : Payload,
        buildPayload form = .ok payload →
        (∀ resultado : PredictionResult, fetchOutcome ≠ .ok resultado) →
        (handleSubmit form fetchOutcome ui).1.errorVisible = true ∧
        (handleSubmit form fetchOutcome ui).1.resultsVisible = false ∧
        (handleSubmit form fetchOutcome ui).1.tbodyRows = []) := by
  intro form fetchOutcome ui
  refine ⟨?_, ?_, ?_, ?_⟩
  · unfold handleSubmit
    cases h : buildPayload form
    case error msg => exact Or.inr ⟨rfl, rfl, rfl⟩
    case ok payload =>
      cases fetchOutcome
      case ok resultado => exact Or.inl ⟨rfl, rfl⟩
      case httpError detail => exact Or.inr ⟨rfl, rfl, rfl⟩
      case transportFailure mensaje => exact Or.inr ⟨rfl, rfl, rfl⟩
  · intro payload resultado hb hf
    subst hf
    unfold handleSubmit
    rw [hb]
    exact ⟨rfl, rfl⟩
  · intro msg hb
    unfold handleSubmit
    rw [hb]
    exact ⟨rfl, rfl, rfl⟩
  · intro payload hb hne
    unfold handleSubmit
    rw [hb]
    cases fetchOutcome
    case ok resultado => exact absurd rfl (hne resultado)
    case httpError detail => exact ⟨rfl, rfl, rfl⟩
    case transportFailure mensaje => exact ⟨rfl, rfl, rfl⟩

/-- Witness for C8 exercising the success path (manual horizon `6`, scenario
`rcp45`, ok response) and two error paths (missing horizon; non-ok
response). -/
theorem c8_exactly_one_view_witness :
    ((handleSubmit ⟨"6", "rcp45", "", ""⟩ (.ok ⟨"Alto", true, []⟩)
        uiInit).1.resultsVisible = true ∧
     (handleSubmit ⟨"6", "rcp45", "", ""⟩ (.ok ⟨"Alto", true, []⟩)
        uiInit).1.errorVisible = false) ∧
    ((handleSubmit ⟨"", "", "", ""⟩ (.ok ⟨"Alto", true, []⟩)
        uiInit).1.errorVisible = true ∧
     (handleSubmit ⟨"", "", "", ""⟩ (.ok ⟨"Alto", true, []⟩)
        uiInit).1.resultsVisible = false ∧
     (handleSubmit ⟨"", "", "", ""⟩ (.ok ⟨"Alto", true, []⟩)
        uiInit).1.tbodyRows = []) ∧
    ((handleSubmit ⟨"6", "rcp45", "", ""⟩ (.httpError none)
        uiInit).1.errorVisible = true ∧
     (handleSubmit ⟨"6", "rcp45", "", ""⟩ (.httpError none)
        uiInit).1.resultsVisible = false ∧
     (handleSubmit ⟨"6", "rcp45", "", ""⟩ (.httpError none)
        uiInit).1.tbodyRows = []) :=
  ⟨(c8_exactly_one_view ⟨"6", "rcp45", "", ""⟩ (.ok ⟨"Alto", true, []⟩)
      uiInit).2.1 ⟨some 6, "rcp45", none⟩ ⟨"Alto", true, []⟩ rfl rfl,
    (c8_exactly_one_view ⟨"", "", "", ""⟩ (.ok ⟨"Alto", true, []⟩)
      uiInit).2.2.1 missingHorizonMsg rfl,
    (c8_exactly_one_view ⟨"6", "rcp45", "", ""⟩ (.httpError none)
      uiInit).2.2.2 ⟨some 6, "rcp45", none⟩ rfl
      (fun _ h => FetchOutcome.noConfusion h)⟩

theorem pad2_spec (n : Nat) (h : n < 100) :
    (pad2 n).length = 2 ∧ (pad2 n).data.all Char.isDigit = true := by
  interval_cases n <;> exact (by decide)

theorem jsToFixed2_two_decimals (q : ℚ) :
    ∃ pre post : String, jsToFixed2 q = pre ++ "." ++ post ∧
      post.length = 2 ∧ post.data.all Char.isDigit = true := by
  have h : toFixedScaled q % 100 < 100 := Nat.mod_lt _ (by omega)
  exact ⟨(if q < 0 then "-" else "") ++ toString (toFixedScaled q / 100),
    pad2 (toFixedScaled q % 100), rfl, (pad2_spec _ h).1, (pad2_spec _ h).2⟩

/-- C9: every rendered month row tags the situation label with exactly one of
the three visual categories, chosen by precedence (drought, then low-level,
else normal), renders the level with exactly two digits after the decimal
point, and renders the two flags as `Sí`/`No` with the matching boolean
visual category; in particular the entry with `fecha = "2022-05"`,
`nivel = 12.345`, drought set and low-level clear renders level `"12.35"`,
the drought category, `Sí` for drought and `No` for low-level. -/
theorem c9_render_row :
    (∀ mes : MonthEntry,
      (mes.es_sequia = true →
        (renderRow mes).situacionClase = "situacion-sequia") ∧
      (mes.es_sequia = false → mes.es_nivel_bajo = true →
        (renderRow mes).situacionClase = "situacion-bajo") ∧
      (mes.es_sequia = false → mes.es_nivel_bajo = false →
        (renderRow mes).situacionClase = "situacion-normal") ∧
      (mes.es_sequia = true → (renderRow mes).sequiaText = "Sí" ∧
        (renderRow mes).sequiaClase = "boolean-true") ∧
      (mes.es_sequia = false → (renderRow mes).sequiaText = "No" ∧
        (renderRow mes).sequiaClase = "boolean-false") ∧
      (mes.es_nivel_bajo = true → (renderRow mes).bajoText = "Sí" ∧
        (renderRow mes).bajoClase = "boolean-true") ∧
      (mes.es_nivel_bajo = false → (renderRow mes).bajoText = "No" ∧
        (renderRow mes).bajoClase = "boolean-false") ∧
      (∃ pre post : String,
        (renderRow mes).nivelText = pre ++ "." ++ post ∧
        post.length = 2 ∧ post.data.all Char.isDigit = true)) ∧
    renderRow ⟨"2022-05", mkRat 12345 1000, "Alerta", true, false⟩ =
      ⟨"2022-05", "12.35", "situacion-sequia", "Alerta", "boolean-true", "Sí",
        "boolean-false", "No"⟩ := by
  constructor
  · intro mes
    refine ⟨?_, ?_, ?_, ?_, ?_, ?_, ?_, ?_⟩
    · intro h; simp [renderRow, h]
    · intro h1 h2; simp [renderRow, h1, h2]
    · intro h1 h2; simp [renderRow, h1, h2]
    · intro h; simp [renderRow, h]
    · intro h; simp [renderRow, h]
    · intro h; simp [renderRow, h]
    · intro h; simp [renderRow, h]
    · exact jsToFixed2_two_decimals mes.nivel
  · decide

/-- Witness for C9 exercising all three situation categories on concrete
entries. -/
theorem c9_render_row_witness :
    (renderRow ⟨"2022-05", mkRat 12345 1000, "Alerta", true, false⟩).situacionClase
        = "situacion-sequia" ∧
    (renderRow ⟨"2022-06", mkRat 5 1, "Bajo", false, true⟩).situacionClase
        = "situacion-bajo" ∧
    (renderRow ⟨"2022-07", mkRat 5 1, "Normal", false, false⟩).situacionClase
        = "situacion-normal" :=
  ⟨(c9_render_row.1 ⟨"2022-05", mkRat 12345 1000, "Alerta", true, false⟩).1 rfl,
    (c9_render_row.1 ⟨"2022-06", mkRat 5 1, "Bajo", false, true⟩).2.1 rfl rfl,
    (c9_render_row.1 ⟨"2022-07", mkRat 5 1, "Normal", false, false⟩).2.2.1
      rfl rfl⟩

/-- `beginsWith nee hay` holds when `nee` is an initial segment of `hay`. -/
def beginsWith : List Char → List Char → Bool
  | [], _ => true
  | _ :: _, [] => false
  | a :: as, b :: bs => a == b && beginsWith as bs

/-- `hasSub nee hay` holds when `nee` occurs contiguously inside `hay`
(JS `String.prototype.includes`). -/
def hasSub (nee hay : List Char) : Bool :=
  hay.tails.any (fun t => beginsWith nee t)

theorem beginsWith_self_append (a v : List Char) :
    beginsWith a (a ++ v) = true := by
  induction a with
  | nil => rfl
  | cons c cs ih => simp [beginsWith, ih]

theorem hasSub_of_parts (x hay u v : List Char) (h : hay = u ++ (x ++ v)) :
    hasSub x hay = true := by
  subst h
  unfold hasSub
  rw [List.any_eq_true]
  exact ⟨x ++ v, (List.mem_tails _ _).mpr ⟨u, rfl⟩, beginsWith_self_append x v⟩

theorem nonFutureMsg_length (t : String) :
    (nonFutureMsg t).length = 19 + t.length + 63 := by
  unfold nonFutureMsg
  rw [String.length_append, String.length_append]
  have h1 : ("La fecha objetivo (" : String).length = 19 := by decide
  have h2 :
      ((") debe ser posterior a la última fecha disponible (marzo 2021)." :
        String)).length = 63 := by decide
  omega

theorem nonFutureMsg_ne_invalid (t : String) :
    nonFutureMsg t ≠ invalidDateMsg := by
  intro h
  have hlen := congrArg String.length h
  rw [nonFutureMsg_length] at hlen
  have h26 : invalidDateMsg.length = 26 := by decide
  omega

/-- C4 counterexample: the NonFutureTarget message is one and the same string
for two different reference dates (2020-05-01 and 2030-06-15), and that
string contains no rendering of either reference year — so it cannot contain
a human-readable form of the reference date that was passed in. -/
theorem c4_counterexample :
    calcularMesesHastaFecha "2019-01-01" "2020-05-01" =
      .error (nonFutureMsg "2019-01-01") ∧
    calcularMesesHastaFecha "2019-01-01" "2030-06-15" =
      .error (nonFutureMsg "2019-01-01") ∧
    hasSub "2020".data (nonFutureMsg "2019-01-01").data = false ∧
    hasSub "2030".data (nonFutureMsg "2019-01-01").data = false ∧
    hasSub "mayo".data (nonFutureMsg "2019-01-01").data = false ∧
    hasSub "junio".data (nonFutureMsg "2019-01-01").data = false := by decide

/-- C4 (amended): every NonFutureTarget message contains the rejected target
date string and the fixed text `marzo 2021` — the human-readable form of the
configured reference `LAST_DATA_DATE`, not of the reference argument that was
passed in. -/
theorem c4_message_contents :
    ∀ (sT sR : String) (T R : JDate),
      parseISODate (normalizeFecha sT) = some T →
      parseISODate sR = some R →
      dateLe T R →
      calcularMesesHastaFecha sT sR = .error (nonFutureMsg sT) ∧
      hasSub sT.data (nonFutureMsg sT).data = true ∧
      hasSub "marzo 2021".data (nonFutureMsg sT).data = true := by
  intro sT sR T R hT hR h
  refine ⟨calcular_error_of_parse sT sR T R hT hR h, ?_, ?_⟩
  · apply hasSub_of_parts sT.data _ ("La fecha objetivo (").data
      ((") debe ser posterior a la última fecha disponible (marzo 2021)." :
        String)).data
    simp [nonFutureMsg, String.data_append]
  · have hsplit : nonFutureMsg sT =
        ("La fecha objetivo (" ++ sT) ++
          (") debe ser posterior a la última fecha disponible (" ++
            ("marzo 2021" ++ ").")) := by
      unfold nonFutureMsg
      rw [show ((") debe ser posterior a la última fecha disponible (marzo 2021)." : String)) = ") debe ser posterior a la última fecha disponible (" ++ ("marzo 2021" ++ ").") from by decide]
    apply hasSub_of_parts "marzo 2021".data _
      (("La fecha objetivo (" ++ sT).data ++
        (") debe ser posterior a la última fecha disponible (" : String).data)
      (")." : String).data
    rw [hsplit]
    simp [String.data_append, List.append_assoc]

/-- Witness for C4 (amended) at target 2021-01-15 and reference 2021-03-01. -/
theorem c4_message_contents_witness :
    calcularMesesHastaFecha "2021-01-15" "2021-03-01" =
      .error (nonFutureMsg "2021-01-15") ∧
    hasSub "2021-01-15".data (nonFutureMsg "2021-01-15").data = true ∧
    hasSub "marzo 2021".data (nonFutureMsg "2021-01-15").data = true :=
  c4_message_contents "2021-01-15" "2021-03-01" ⟨2021, 1, 15⟩ ⟨2021, 3, 1⟩
    (by decide) (by decide) (by decide)

theorem normalizeFecha_shorthand (s : String)
    (hdash : s.data.contains '-' = true) (hlen : s.length = 7) :
    normalizeFecha s = s ++ "-01" := by
  unfold normalizeFecha
  rw [if_pos (by rw [hdash, hlen]; decide)]

theorem normalizeFecha_ten (s : String) (hlen : s.length = 10) :
    normalizeFecha s = s := by
  unfold normalizeFecha
  rw [if_neg (by simp [hlen])]

/-- C5 counterexample: for a non-future year-month shorthand the outcomes of
the shorthand and of its `-01` expansion differ — both are NonFutureTarget
errors, but the message echoes the original input string, so the two error
values are not equal. -/
theorem c5_counterexample :
    calcularMesesHastaFecha "2021-02" "2021-03-01" =
      .error (nonFutureMsg "2021-02") ∧
    calcularMesesHastaFecha "2021-02-01" "2021-03-01" =
      .error (nonFutureMsg "2021-02-01") ∧
    calcularMesesHastaFecha "2021-02" "2021-03-01" ≠
      calcularMesesHastaFecha "2021-02-01" "2021-03-01" := by decide

/-- C5 (amended): for every 7-character target string containing a dash (in
particular every `YYYY-MM` shorthand) and every reference string, the
shorthand and its `-01` expansion agree on the returned month count and on
the error kind (InvalidDate, or NonFutureTarget); only the target string
echoed inside the NonFutureTarget message differs. -/
theorem c5_shorthand_equiv :
    ∀ (s sR : String), s.data.contains '-' = true → s.length = 7 →
      (∀ n : Int, calcularMesesHastaFecha s sR = .ok n ↔
        calcularMesesHastaFecha (s ++ "-01") sR = .ok n) ∧
      (calcularMesesHastaFecha s sR = .error invalidDateMsg ↔
        calcularMesesHastaFecha (s ++ "-01") sR = .error invalidDateMsg) ∧
      (calcularMesesHastaFecha s sR = .error (nonFutureMsg s) ↔
        calcularMesesHastaFecha (s ++ "-01") sR =
          .error (nonFutureMsg (s ++ "-01"))) := by
  intro s sR hdash hlen
  have h1 : normalizeFecha s = s ++ "-01" := normalizeFecha_shorthand s hdash hlen
  have h2 : normalizeFecha (s ++ "-01") = s ++ "-01" :=
    normalizeFecha_ten _ (by rw [String.length_append, hlen]; decide)
  simp only [calcularMesesHastaFecha, h1, h2]
  cases hp : parseISODate (s ++ "-01") with
  | none =>
    cases hq : parseISODate sR with
    | none =>
      simp [(nonFutureMsg_ne_invalid s).symm,
        (nonFutureMsg_ne_invalid (s ++ "-01")).symm]
    | some R =>
      simp [(nonFutureMsg_ne_invalid s).symm,
        (nonFutureMsg_ne_invalid (s ++ "-01")).symm]
  | some T =>
    cases hq : parseISODate sR with
    | none =>
      simp [(nonFutureMsg_ne_invalid s).symm,
        (nonFutureMsg_ne_invalid (s ++ "-01")).symm]
    | some R =>
      by_cases hle : dateLe T R
      · simp [hle, nonFutureMsg_ne_invalid s, nonFutureMsg_ne_invalid (s ++ "-01")]
      · simp [hle]

/-- Witness for C5 (amended) on the shorthand `2022-05`. -/
theorem c5_shorthand_equiv_witness :
    calcularMesesHastaFecha "2022-05" "2021-03-01" = .ok 14 ↔
      calcularMesesHastaFecha "2022-05-01" "2021-03-01" = .ok 14 :=
  (c5_shorthand_equiv "2022-05" "2021-03-01" (by decide) (by decide)).1 14
